import Mathlib

/-!
Shallow embedding of the client-side session and progress logic of
`src/frontend/app.js` (AI tutoring frontend): per-thread message counting
and the context-overflow warning, thread switching with asynchronous
history loading, the notification hide timers, level-up detection, the XP
progress bar, sign-out, and session restore at startup.  Every definition
mirrors the corresponding source function; the mutable globals of the
script become explicit state records and each `await fetch` becomes a
suspension point whose continuation is a separate function.
-/

/-- `CONTEXT_THRESHOLD` (app.js line 18). -/
def CONTEXT_THRESHOLD : Nat := 10

/-- `updateContextWarning` (app.js lines 376-384): the context warning
element is displayed iff `currentMessagesCount > CONTEXT_THRESHOLD`. -/
def contextWarning (count : Nat) : Bool := decide (CONTEXT_THRESHOLD < count)

/-- The `type` argument of `appendMessage` (app.js line 815). -/
inductive MsgType where
  | user
  | tutor
  | system
deriving DecidableEq

/-- One rendered chat message: sender label, text, and role class. -/
structure ChatMsg where
  sender : String
  text : String
  mtype : MsgType
deriving DecidableEq

/-- The mutable globals touched by the chat send path of app.js:
`currentUserId`, `currentThreadId`, `currentMessagesCount`, the context
warning display, and the `chat-messages` container. -/
structure ChatState where
  currentUserId : Option Int
  currentThreadId : Option Int
  currentMessagesCount : Nat
  warningVisible : Bool
  chatMessages : List ChatMsg
deriving DecidableEq

/-- Body of the POST `/chat` request built by `sendMessage`
(app.js line 795). -/
structure ChatRequest where
  user_id : Int
  message : String
  thread_id : Option Int
deriving DecidableEq

/-- Result of awaiting the POST `/chat` fetch in `sendMessage`. -/
inductive ChatOutcome where
  | ok (response : String)
  | serverError (detail : String)
  | networkError

/-- Drop leading whitespace characters from a character list. -/
def dropLeadingWs : List Char → List Char
  | [] => []
  | c :: cs => if c.isWhitespace then dropLeadingWs cs else c :: cs

/-- JavaScript `String.prototype.trim()`: strip whitespace from both ends
of the string (used on the chat input value, app.js line 786). -/
def jsTrim (s : String) : String :=
  String.mk ((dropLeadingWs ((dropLeadingWs s.data).reverse)).reverse)

/-- `appendMessage(sender, text, type)` (app.js lines 815-844): appends the
message to the chat container; then, only when the type is `user` or
`tutor`, increments `currentMessagesCount` and calls
`updateContextWarning`.  System messages do not count. -/
def appendMessage (st : ChatState) (sender text : String) (t : MsgType) : ChatState :=
  let st1 := { st with chatMessages := st.chatMessages ++ [⟨sender, text, t⟩] }
  if t = MsgType.user ∨ t = MsgType.tutor then
    let st2 := { st1 with currentMessagesCount := st1.currentMessagesCount + 1 }
    { st2 with warningVisible := contextWarning st2.currentMessagesCount }
  else st1

/-- `sendMessage()` (app.js lines 780-813).  Returns the new state together
with the POST `/chat` request that was issued, if any.  The guard is
`if (!currentUserId) return` only; there is no guard on
`currentThreadId`, which is sent as-is in the request body.  On a 2xx
response the code appends the tutor reply (which already increments the
counter inside `appendMessage`) and then additionally executes
`currentMessagesCount++` followed by `updateContextWarning()`.  The
trailing `loadDashboard()` call touches only the dashboard slice and is
modelled separately. -/
def sendMessage (st : ChatState) (inputValue : String) (outcome : ChatOutcome) :
    ChatState × Option ChatRequest :=
  match st.currentUserId with
  | none => (st, none)
  | some uid =>
    let message := jsTrim inputValue
    if message = "" then (st, none) else
    let st1 := appendMessage st "You" message MsgType.user
    let req : ChatRequest := ⟨uid, message, st1.currentThreadId⟩
    match outcome with
    | ChatOutcome.ok resp =>
      let st2 := appendMessage st1 "Tutor" resp MsgType.tutor
      let st3 := { st2 with currentMessagesCount := st2.currentMessagesCount + 1 }
      let st4 := { st3 with warningVisible := contextWarning st3.currentMessagesCount }
      (st4, some req)
    | ChatOutcome.serverError detail =>
      (appendMessage st1 "System" detail MsgType.system, some req)
    | ChatOutcome.networkError =>
      (appendMessage st1 "System" "Error connecting to server" MsgType.system, some req)

/-- One completed chat exchange: user sends `msg`, server replies `resp`. -/
def exchange (st : ChatState) (msg resp : String) : ChatState :=
  (sendMessage st msg (ChatOutcome.ok resp)).1

/-- `n` completed exchanges in a row. -/
def repeatExchange : Nat → ChatState → ChatState
  | 0, st => st
  | n + 1, st => repeatExchange n (exchange st "2+2?" "4")

/-- A freshly selected thread for a logged-in user: counter 0, warning
hidden, empty chat container. -/
def chatInit : ChatState :=
  { currentUserId := some 1
    currentThreadId := some 1
    currentMessagesCount := 0
    warningVisible := false
    chatMessages := [] }

example : (exchange chatInit "2+2?" "4").currentMessagesCount = 3 := by decide
example : (repeatExchange 6 chatInit).currentMessagesCount = 18 := by decide

/-!
Thread switching and asynchronous history loading (`switchThread`,
app.js lines 356-369, and `loadHistory`, lines 912-942).  `loadHistory`
suspends at `await fetch`; the part before the suspension
(`loadHistoryStart`) records a pending request whose URL was built from
`currentThreadId` at issue time, and the continuation after the response
(`loadHistoryComplete`) writes the history display and the message
counter.  The continuation performs no comparison between the originating
thread id and the thread active at completion time.
-/

/-- One record of the GET `/history/{userId}/{threadId}` response
(`{message, response, timestamp}`). -/
structure HistoryItem where
  timestamp : String
  message : String
  response : String
deriving DecidableEq

/-- An in-flight history fetch, remembering the thread id that was
interpolated into the request URL when it was issued. -/
structure PendingFetch where
  origin : Int
deriving DecidableEq

/-- Contents of the `history` element. -/
inductive HistoryDisplay where
  | noThread
  | loading
  | items (origin : Int) (data : List HistoryItem)
  | errorText (s : String)
deriving DecidableEq

/-- The globals touched by thread switching and history loading, plus the
queue of pending history fetches. -/
structure ThreadState where
  currentUserId : Option Int
  currentThreadId : Option Int
  currentMessagesCount : Nat
  warningVisible : Bool
  chatHtml : String
  display : HistoryDisplay
  pending : List PendingFetch
deriving DecidableEq

/-- `loadHistory()` up to its `await fetch` (app.js lines 912-921): return
early when `currentUserId` is null; show the explicit no-active-thread
text when `currentThreadId` is null; otherwise show `Loading...` and issue
the fetch keyed by the current thread id. -/
def loadHistoryStart (st : ThreadState) : ThreadState :=
  match st.currentUserId with
  | none => st
  | some _ =>
    match st.currentThreadId with
    | none => { st with display := HistoryDisplay.noThread }
    | some tid =>
      { st with display := HistoryDisplay.loading
                pending := st.pending ++ [⟨tid⟩] }

/-- The continuation of `loadHistory()` after its fetch resolves with a
2xx JSON body (app.js lines 924-935): clear the history element, set
`currentMessagesCount = data.length * 2`, call `updateContextWarning`,
and render the items.  The incoming data is applied unconditionally —
`currentThreadId` is not consulted. -/
def loadHistoryComplete (st : ThreadState) (f : PendingFetch) (data : List HistoryItem) :
    ThreadState :=
  { st with currentMessagesCount := data.length * 2
            warningVisible := contextWarning (data.length * 2)
            display := HistoryDisplay.items f.origin data }

/-- `switchThread(threadId)` (app.js lines 356-369): no-op when the thread
is already active; otherwise set `currentThreadId`, reset
`currentMessagesCount` to 0, recompute the context warning, clear the
chat container, and start `loadHistory`.  The trailing `await
loadThreads()` only rebuilds the tab bar here (a thread is selected, so
its pick-first-thread branch is skipped) and is outside this state
slice. -/
def switchThread (st : ThreadState) (threadId : Int) : ThreadState :=
  if st.currentThreadId = some threadId then st
  else
    loadHistoryStart
      { st with currentThreadId := some threadId
                currentMessagesCount := 0
                warningVisible := contextWarning 0
                chatHtml := "" }

/-- Event-loop events for the thread/history slice: a user click on a
thread tab, or the arrival of the response to the `idx`-th pending
history fetch. -/
inductive ThreadEvent where
  | userSwitch (tid : Int)
  | fetchReturn (idx : Nat) (data : List HistoryItem)

/-- Single-threaded event-loop step: callbacks run to completion one at a
time. -/
def threadStep (st : ThreadState) (e : ThreadEvent) : ThreadState :=
  match e with
  | ThreadEvent.userSwitch tid => switchThread st tid
  | ThreadEvent.fetchReturn idx data =>
    match st.pending.get? idx with
    | none => st
    | some f => loadHistoryComplete { st with pending := st.pending.eraseIdx idx } f data

/-- Run a sequence of interleaved events. -/
def runEvents (st : ThreadState) (es : List ThreadEvent) : ThreadState :=
  es.foldl threadStep st

/-- Three history records for thread 1, as returned by the server. -/
def itemsThread1 : List HistoryItem :=
  [⟨"t1", "q1", "a1"⟩, ⟨"t2", "q2", "a2"⟩, ⟨"t3", "q3", "a3"⟩]

/-- Thread 1 is active for user 1 and its history fetch is in flight. -/
def staleInit : ThreadState :=
  { currentUserId := some 1
    currentThreadId := some 1
    currentMessagesCount := 0
    warningVisible := false
    chatHtml := ""
    display := HistoryDisplay.loading
    pending := [⟨1⟩] }

/-- The interleaving of claim C2: the user switches to thread 2 while the
fetch for thread 1 is still pending, then thread 1's response arrives. -/
def staleRun : ThreadState :=
  runEvents staleInit [ThreadEvent.userSwitch 2, ThreadEvent.fetchReturn 0 itemsThread1]

example : staleRun.currentThreadId = some 2 := by decide
example : staleRun.display = HistoryDisplay.items 1 itemsThread1 := by decide
example : staleRun.currentMessagesCount = 6 := by decide

/-!
`showNotification(message, type)` (app.js lines 532-543) writes the text
and css class of the shared `notification` element, makes it visible, and
schedules `setTimeout(() => notif.style.display = none, 4000)`.  No timer
handle is stored and `clearTimeout` never appears in the file, so every
call adds one more hide timer.  Time is modelled with a millisecond
clock; `elapse` advances it, firing every due timer (each fired timer
hides the element). -/

/-- The `notification` DOM element. -/
structure NotifElem where
  text : String
  cssClass : String
  displayed : Bool
deriving DecidableEq

/-- The notification element together with the event-loop clock and the
fire times of all pending hide timers. -/
structure SchedState where
  clock : Nat
  notif : NotifElem
  timers : List Nat
deriving DecidableEq

/-- `showNotification(message, type)` at the current clock: replace the
content, show the element, and schedule a hide timer 4000 ms out.  The
previously scheduled timers remain pending. -/
def showNotification (st : SchedState) (message ntype : String) : SchedState :=
  { st with
      notif := { text := message, cssClass := "notification " ++ ntype, displayed := true }
      timers := st.timers ++ [st.clock + 4000] }

/-- Advance the clock by `d` ms, firing every timer that comes due; each
fired timer executes `notif.style.display = none`. -/
def elapse (st : SchedState) (d : Nat) : SchedState :=
  let t := st.clock + d
  let fired := st.timers.filter (fun f => decide (f ≤ t))
  { clock := t
    notif := if fired.isEmpty then st.notif else { st.notif with displayed := false }
    timers := st.timers.filter (fun f => decide (¬ f ≤ t)) }

/-- Page with no banner shown and no pending timers. -/
def schedInit : SchedState :=
  { clock := 0, notif := { text := "", cssClass := "", displayed := false }, timers := [] }

/-- The scenario of claim C3: notify A at t=0, notify B (same kind) at
t=3900, observe at t=4100. -/
def notifScenario : SchedState :=
  elapse (showNotification (elapse (showNotification schedInit "A" "success") 3900) "B" "success") 200

example : notifScenario.notif.text = "B" := by decide
example : notifScenario.notif.displayed = false := by decide
example : notifScenario.clock = 4100 := by decide

/-!
Dashboard progress and level-up detection, from `loadDashboard`
(app.js lines 944-1004) and `XP_THRESHOLDS` (line 32).  XP arithmetic is
over ℚ.  The `lastLevel` localStorage slot is modelled as `Option Int`:
the code writes `level.toString()` and reads it back with
`parseInt(stored, 10)`, an identity round-trip on integers.
-/

/-- `XP_THRESHOLDS` (app.js line 32). -/
def XP_THRESHOLDS : List ℚ := [0, 100, 250, 500, 1000, 2000]

/-- `XP_THRESHOLDS[level] !== undefined ? XP_THRESHOLDS[level] : 0`
(app.js line 973). -/
def currentThreshold (level : Nat) : ℚ := (XP_THRESHOLDS.get? level).getD 0

/-- `XP_THRESHOLDS[XP_THRESHOLDS.length - 1]` (app.js line 974). -/
def lastThreshold : ℚ := (XP_THRESHOLDS.get? (XP_THRESHOLDS.length - 1)).getD 0

/-- `XP_THRESHOLDS[level + 1] !== undefined ? XP_THRESHOLDS[level + 1] :
XP_THRESHOLDS[XP_THRESHOLDS.length - 1]` (app.js line 974). -/
def nextThreshold (level : Nat) : ℚ := (XP_THRESHOLDS.get? (level + 1)).getD lastThreshold

/-- The progress-bar percentage (app.js lines 976-980): when
`nextThreshold > currentThreshold`, the percentage within the level is
clamped into [0, 100] by `Math.max(0, Math.min(progress, 100))`;
otherwise it stays 0. -/
def computeProgress (xp : ℚ) (level : Nat) : ℚ :=
  if currentThreshold level < nextThreshold level then
    max 0 (min ((xp - currentThreshold level) / (nextThreshold level - currentThreshold level) * 100) 100)
  else 0

/-- The progress fraction in [0,1] that the spec talks about: the
percentage divided by 100. -/
def computeFraction (xp : ℚ) (level : Nat) : ℚ := computeProgress xp level / 100

/-- The level-up check of `loadDashboard` (app.js lines 990-996): fire iff
the observed level exceeds the last persisted one, then persist the
observed level unconditionally.  A missing or empty stored value reads as
0.  Returns (fired?, persisted value). -/
def detectLevelUp (lastLevel : Option Int) (level : Int) : Bool × Int :=
  (decide (lastLevel.getD 0 < level), level)

/-- Fold `detectLevelUp` over a sequence of dashboard snapshots' levels,
threading the persisted `lastLevel` slot; returns the list of fire flags
and the final persisted value. -/
def runDashboardLevels : Option Int → List Int → List Bool × Option Int
  | last, [] => ([], last)
  | last, l :: ls =>
    let r := runDashboardLevels (some (detectLevelUp last l).2) ls
    ((detectLevelUp last l).1 :: r.1, r.2)

example : (runDashboardLevels (some 1) [3, 3, 2]).1 = [true, false, false] := by decide
example : computeFraction 100 6 = 1 / 20 := by
  norm_num [computeFraction, computeProgress, currentThreshold, nextThreshold,
    lastThreshold, XP_THRESHOLDS, List.get?]
example : computeFraction 5000 5 = 0 := by
  norm_num [computeFraction, computeProgress, currentThreshold, nextThreshold,
    lastThreshold, XP_THRESHOLDS, List.get?]

/-!
`signOut()` (app.js lines 662-677) and the session-restore branch of the
`DOMContentLoaded` handler (app.js lines 578-635).
-/

/-- The state touched by `signOut`: in-memory globals, the persisted
localStorage keys, the section visibilities, and the cleared containers.
`progressHtml` is the `progress-info` element written by
`loadDashboard`. -/
structure SignOutState where
  currentUserId : Option Int
  currentUserName : String
  currentThreadId : Option Int
  currentMessagesCount : Nat
  localUserId : Option String
  localUsername : Option String
  chatVisible : Bool
  dashboardVisible : Bool
  authVisible : Bool
  chatMessagesHtml : String
  historyHtml : String
  summaryHtml : String
  progressHtml : String
deriving DecidableEq

/-- `signOut()` (app.js lines 662-677): null the user id and name, remove
the persisted `userId`/`username` keys, hide the chat and dashboard
sections, show the auth section, and clear the `chat-messages`,
`history` and `summary` containers.  The source assigns nothing to
`currentThreadId`, `currentMessagesCount` or the `progress-info`
element, so those fields pass through unchanged. -/
def signOut (st : SignOutState) : SignOutState :=
  { st with
      currentUserId := none
      currentUserName := ""
      localUserId := none
      localUsername := none
      chatVisible := false
      dashboardVisible := false
      authVisible := true
      chatMessagesHtml := ""
      historyHtml := ""
      summaryHtml := "" }

/-- A signed-in user mid-conversation: thread 7 active, 4 messages
counted, content on screen. -/
def signedInExample : SignOutState :=
  { currentUserId := some 5
    currentUserName := "alice"
    currentThreadId := some 7
    currentMessagesCount := 4
    localUserId := some "5"
    localUsername := some "alice"
    chatVisible := true
    dashboardVisible := true
    authVisible := false
    chatMessagesHtml := "msgs"
    historyHtml := "hist"
    summaryHtml := "sum"
    progressHtml := "xp-bar" }

/-- Outcome of the GET `/users/{id}` validation fetch during session
restore: a 2xx response, a non-2xx response (`res.ok` false), or a
thrown network error. -/
inductive UserInfoResult where
  | ok
  | reject
  | netError

/-- The state touched by the session-restore branch of the
`DOMContentLoaded` handler.  The persisted `userId` key is modelled as
`Option Int` (the code stores the numeric id's string form and reads it
back with `parseInt`).  `blockingAlert` records whether any `alert()`
was raised. -/
structure RestoreState where
  currentUserId : Option Int
  currentUserName : String
  localUserId : Option Int
  localUsername : Option String
  chatVisible : Bool
  dashboardVisible : Bool
  authVisible : Bool
  blockingAlert : Bool
deriving DecidableEq

/-- The session-restore branch (app.js lines 585-630): when a `userId`
key is persisted, set `currentUserId`/`currentUserName` from storage and
fetch `/users/{id}`.  On a 2xx response, enter authenticated mode (show
chat and dashboard, hide auth).  On a non-2xx response, remove the
persisted keys — the already-assigned `currentUserId` is left as is and
no message of any kind is raised.  On a thrown fetch error the catch
block does nothing at all ("If fetch fails, ignore and show auth"): the
persisted keys are retained.  The authenticated-mode branch also loads
threads, history, materials and topics, which live in other state
slices. -/
def restoreSession (st : RestoreState) (outcome : UserInfoResult) : RestoreState :=
  match st.localUserId with
  | none => st
  | some uid =>
    let st1 := { st with currentUserId := some uid
                         currentUserName := st.localUsername.getD "" }
    match outcome with
    | UserInfoResult.ok =>
      { st1 with chatVisible := true, dashboardVisible := true, authVisible := false }
    | UserInfoResult.reject =>
      { st1 with localUserId := none, localUsername := none }
    | UserInfoResult.netError => st1

/-- Page-load state with a persisted session present: the auth section is
visible, the authenticated sections are hidden, and no alert has been
raised. -/
def restoreInit (uid : Int) (uname : String) : RestoreState :=
  { currentUserId := none
    currentUserName := ""
    localUserId := some uid
    localUsername := some uname
    chatVisible := false
    dashboardVisible := false
    authVisible := true
    blockingAlert := false }

example : (restoreSession (restoreInit 9 "bob") UserInfoResult.netError).localUserId = some 9 := by
  decide
example : (restoreSession (restoreInit 9 "bob") UserInfoResult.reject).localUserId = none := by
  decide
example : (restoreSession (restoreInit 9 "bob") UserInfoResult.reject).currentUserId = some 9 := by
  decide

/-!
Theorems for the claims.
-/

/-- C1: starting from a counter of 0, each completed exchange increases the
counter by exactly 2 — so 2 after one exchange and 12 after six.  The code
disagrees: `appendMessage` counts the user message and the tutor reply
once each, and `sendMessage` then increments a third time for the tutor
reply, so one exchange yields 3 and six exchanges yield 18 (the context
flag is still false after one exchange and true after six, since
3 ≤ 10 < 18). -/
theorem sendMessage_exchange_counter_values :
    (exchange chatInit "2+2?" "4").currentMessagesCount = 3 ∧
    (exchange chatInit "2+2?" "4").warningVisible = false ∧
    (repeatExchange 6 chatInit).currentMessagesCount = 18 ∧
    (repeatExchange 6 chatInit).warningVisible = true := by decide

/-- C2: a history response for thread 1 that completes after the user has
switched to thread 2 is claimed to be discarded.  The code has no
originating-thread-id guard: in the interleaving `staleRun`, thread 1's
stale response is applied while thread 2 is active — it replaces the
displayed history with thread 1's items and sets the counter to 6, with
thread 2's own fetch still pending. -/
theorem stale_history_response_applied :
    staleRun.currentThreadId = some 2 ∧
    staleRun.display = HistoryDisplay.items 1 itemsThread1 ∧
    staleRun.currentMessagesCount = 6 ∧
    staleRun.pending = [⟨2⟩] := by decide

/-- C3: `notify(A, kind, 4000)` followed by `notify(B, kind, 4000)` at
t=3900 is claimed to leave B visible at t=4100.  `showNotification` never
cancels the earlier timer, so A's timer fires at t=4000 and hides the
element: at t=4100 the banner holds B's text but is no longer
displayed. -/
theorem notification_replacement_hidden_early :
    notifScenario.clock = 4100 ∧
    notifScenario.notif.text = "B" ∧
    notifScenario.notif.displayed = false := by decide

/-- Once the persisted level is at least every later observed level, no
further level-up fires. -/
lemma runDashboardLevels_no_fire (ls : List Int) :
    ∀ p : Int, List.Chain (fun a b => b ≤ a) p ls →
      (runDashboardLevels (some p) ls).1 = List.replicate ls.length false := by
  induction ls with
  | nil => intro p _; rfl
  | cons l ls ih =>
    intro p h
    cases h with
    | cons h1 h2 =>
      simp only [runDashboardLevels, detectLevelUp, Option.getD_some, List.length_cons,
        List.replicate_succ, List.cons.injEq]
      exact ⟨decide_eq_false (not_lt.mpr h1), ih l h2⟩

/-- The persisted slot always ends at the last observed level. -/
lemma runDashboardLevels_persists (last : Option Int) (l : Int) (ls : List Int) :
    (runDashboardLevels last (l :: ls)).2
      = some ((l :: ls).getLast (List.cons_ne_nil l ls)) := by
  induction ls generalizing last l with
  | nil => rfl
  | cons m ms ih =>
    simp only [runDashboardLevels, detectLevelUp]
    rw [List.getLast_cons (List.cons_ne_nil m ms)]
    exact ih (some l) m

/-- C4: each dashboard snapshot persists its observed level
unconditionally, and over any run of snapshots with non-increasing levels
the level-up notification fires at most once: exactly at the first
snapshot, and only when its level exceeds the initially persisted one. -/
theorem detectLevelUp_fires_once (last : Option Int) (l : Int) (ls : List Int)
    (h : List.Chain (fun a b => b ≤ a) l ls) :
    (∀ p x, (detectLevelUp p x).2 = x) ∧
    (runDashboardLevels last (l :: ls)).2
      = some ((l :: ls).getLast (List.cons_ne_nil l ls)) ∧
    (runDashboardLevels last (l :: ls)).1
      = decide (last.getD 0 < l) :: List.replicate ls.length false := by
  refine ⟨fun p x => rfl, runDashboardLevels_persists last l ls, ?_⟩
  simp only [runDashboardLevels, detectLevelUp, List.cons.injEq, true_and]
  exact runDashboardLevels_no_fire ls l h

/-- C4 witness: starting from persisted level 1, the non-increasing
snapshot sequence 3, 3, 2 fires exactly once, at its first snapshot, and
ends with 2 persisted. -/
theorem detectLevelUp_fires_once_witness :
    (runDashboardLevels (some 1) [3, 3, 2]).2 = some 2 ∧
    (runDashboardLevels (some 1) [3, 3, 2]).1 = [true, false, false] :=
  ⟨(detectLevelUp_fires_once (some 1) 3 [3, 2]
      (List.Chain.cons (by decide) (List.Chain.cons (by decide) List.Chain.nil))).2.1,
   (detectLevelUp_fires_once (some 1) 3 [3, 2]
      (List.Chain.cons (by decide) (List.Chain.cons (by decide) List.Chain.nil))).2.2⟩

/-- C5 counterexample: the last defined index of `XP_THRESHOLDS` is 5, and
for level 6 — which strictly exceeds it — the fraction at xp = 100 is
1/20, not 0.  The floor lookup `XP_THRESHOLDS[level]` is undefined beyond
the table and falls back to 0, not to the last threshold, so the division
runs with floor 0 and ceiling 2000. -/
theorem computeFraction_beyond_table_nonzero :
    XP_THRESHOLDS.length - 1 = 5 ∧ computeFraction 100 6 ≠ 0 := by
  refine ⟨rfl, ?_⟩
  norm_num [computeFraction, computeProgress, currentThreshold, nextThreshold,
    lastThreshold, XP_THRESHOLDS, List.get?]

/-- C5 amended: the progress fraction is flat (0) exactly at the table's
last defined index, where the last threshold serves as both floor and
ceiling; for every level strictly beyond the last index the floor falls
back to 0 while the ceiling stays at the last threshold (2000), so the
percentage is `clamp(xp / 2000 * 100, 0, 100)` — generally nonzero. -/
theorem computeFraction_flat_only_at_last_index (xp : ℚ) (level : Nat)
    (h : XP_THRESHOLDS.length - 1 < level) :
    computeFraction xp 5 = 0 ∧
    computeProgress xp level = max 0 (min (xp / 2000 * 100) 100) := by
  constructor
  · norm_num [computeFraction, computeProgress, currentThreshold, nextThreshold,
      lastThreshold, XP_THRESHOLDS, List.get?]
  · have h6 : XP_THRESHOLDS.length ≤ level := by
      simp only [XP_THRESHOLDS, List.length_cons, List.length_nil] at h ⊢
      omega
    have hget : XP_THRESHOLDS.get? level = none := List.get?_eq_none.mpr h6
    have hget1 : XP_THRESHOLDS.get? (level + 1) = none :=
      List.get?_eq_none.mpr (le_trans h6 (Nat.le_succ level))
    unfold computeProgress currentThreshold nextThreshold
    rw [hget, hget1]
    norm_num [lastThreshold, XP_THRESHOLDS, List.get?]

/-- C5 amended witness: at level 6 (beyond the last index 5) with xp 100
the percentage is the clamped `xp / 2000` value, and at level 5 the
fraction is 0. -/
theorem computeFraction_flat_only_at_last_index_witness :
    computeFraction 100 5 = 0 ∧
    computeProgress 100 6 = max 0 (min ((100:ℚ) / 2000 * 100) 100) :=
  computeFraction_flat_only_at_last_index 100 6 (by decide)

/-- C6: for every xp and level the progress fraction lies in [0,1]; the
division happens only in the branch where the ceiling strictly exceeds
the floor (otherwise the fraction is 0), and there the divisor is
nonzero. -/
theorem computeFraction_bounds (xp : ℚ) (level : Nat) :
    0 ≤ computeFraction xp level ∧ computeFraction xp level ≤ 1 ∧
    (nextThreshold level ≤ currentThreshold level → computeFraction xp level = 0) ∧
    (currentThreshold level < nextThreshold level →
      nextThreshold level - currentThreshold level ≠ 0) := by
  unfold computeFraction computeProgress
  by_cases h : currentThreshold level < nextThreshold level
  · rw [if_pos h]
    refine ⟨?_, ?_, ?_, fun _ => sub_ne_zero_of_ne (ne_of_gt h)⟩
    · exact div_nonneg (le_max_left 0 _) (by norm_num)
    · rw [div_le_one (by norm_num : (0:ℚ) < 100)]
      exact max_le (by norm_num) (min_le_right _ 100)
    · intro hle; exact absurd h (not_lt.mpr hle)
  · rw [if_neg h]
    exact ⟨by norm_num, by norm_num, fun _ => by norm_num, fun h1 => absurd h1 h⟩

/-- C6 witness: concrete values — the fraction at xp 300, level 2 lies in
[0,1], and at level 5 the no-division branch (ceiling = floor = 2000)
returns 0. -/
theorem computeFraction_bounds_witness :
    0 ≤ computeFraction 300 2 ∧ computeFraction 300 2 ≤ 1 ∧
    computeFraction 300 5 = 0 :=
  ⟨(computeFraction_bounds 300 2).1, (computeFraction_bounds 300 2).2.1,
   (computeFraction_bounds 300 5).2.2.1
     (by simp [nextThreshold, currentThreshold, lastThreshold, XP_THRESHOLDS, List.get?])⟩

/-- C7: switching to a different thread resets the counter to 0 and
recomputes the context flag (to hidden) synchronously, before the history
fetch it issues can complete; when that fetch — the one appended at index
`st.pending.length` — returns N records, the counter becomes 2N and the
flag becomes `2N > 10`. -/
theorem switchThread_reset_then_history (st : ThreadState) (uid tid : Int)
    (data : List HistoryItem)
    (hu : st.currentUserId = some uid) (ht : ¬ st.currentThreadId = some tid) :
    (switchThread st tid).currentMessagesCount = 0 ∧
    (switchThread st tid).warningVisible = false ∧
    (runEvents st [ThreadEvent.userSwitch tid,
        ThreadEvent.fetchReturn st.pending.length data]).currentMessagesCount
      = 2 * data.length ∧
    (runEvents st [ThreadEvent.userSwitch tid,
        ThreadEvent.fetchReturn st.pending.length data]).warningVisible
      = decide (2 * data.length > 10) := by
  have hsw : switchThread st tid =
      { st with currentThreadId := some tid
                currentMessagesCount := 0
                warningVisible := false
                chatHtml := ""
                display := HistoryDisplay.loading
                pending := st.pending ++ [⟨tid⟩] } := by
    unfold switchThread loadHistoryStart
    rw [if_neg ht]
    simp [hu, contextWarning, CONTEXT_THRESHOLD]
  have hrun : runEvents st [ThreadEvent.userSwitch tid,
      ThreadEvent.fetchReturn st.pending.length data]
      = loadHistoryComplete
          { st with currentThreadId := some tid
                    currentMessagesCount := 0
                    warningVisible := false
                    chatHtml := ""
                    display := HistoryDisplay.loading
                    pending := (st.pending ++ [PendingFetch.mk tid]).eraseIdx st.pending.length }
          (PendingFetch.mk tid) data := by
    simp only [runEvents, List.foldl, threadStep, hsw, List.get?_concat_length]
  refine ⟨by rw [hsw], by rw [hsw], ?_, ?_⟩
  · rw [hrun]
    simp [loadHistoryComplete, Nat.mul_comm]
  · rw [hrun]
    simp only [loadHistoryComplete, contextWarning, CONTEXT_THRESHOLD, gt_iff_lt,
      decide_eq_decide]
    rw [Nat.mul_comm]

/-- C7 witness: from `staleInit` (thread 1 active, one fetch pending),
switching to thread 2 resets the counter and flag, and the response of
the fetch issued by the switch (index 1) with 3 records yields counter 6
and a hidden flag (6 ≤ 10). -/
theorem switchThread_reset_then_history_witness :
    (switchThread staleInit 2).currentMessagesCount = 0 ∧
    (switchThread staleInit 2).warningVisible = false ∧
    (runEvents staleInit [ThreadEvent.userSwitch 2,
        ThreadEvent.fetchReturn 1 itemsThread1]).currentMessagesCount = 6 ∧
    (runEvents staleInit [ThreadEvent.userSwitch 2,
        ThreadEvent.fetchReturn 1 itemsThread1]).warningVisible = false :=
  switchThread_reset_then_history staleInit 1 2 itemsThread1 rfl (by decide)

/-- C8: the claim that sends are guarded both when unauthenticated and
when no thread is active.  The unauthenticated guard exists
(`if (!currentUserId) return`), but there is no guard on
`currentThreadId`: with a logged-in user and no active thread,
`sendMessage` still issues the POST `/chat` request, carrying a null
`thread_id`. -/
theorem sendMessage_thread_guard_missing :
    (∀ inputValue outcome,
      (sendMessage { chatInit with currentUserId := none } inputValue outcome).2 = none) ∧
    (sendMessage { chatInit with currentThreadId := none } "hi"
        (ChatOutcome.ok "resp")).2 = some ⟨1, "hi", none⟩ := by
  exact ⟨fun inputValue outcome => rfl, by decide⟩

/-- C9: sign-out is claimed to reset the active thread id to null and the
message counter to 0.  `signOut` clears the session and the displayed
content and returns the UI to unauthenticated mode, but it assigns
nothing to `currentThreadId` or `currentMessagesCount`: from a signed-in
state on thread 7 with counter 4, both survive sign-out. -/
theorem signOut_leaves_thread_state :
    (signOut signedInExample).currentUserId = none ∧
    (signOut signedInExample).currentUserName = "" ∧
    (signOut signedInExample).localUserId = none ∧
    (signOut signedInExample).localUsername = none ∧
    (signOut signedInExample).authVisible = true ∧
    (signOut signedInExample).chatVisible = false ∧
    (signOut signedInExample).chatMessagesHtml = "" ∧
    (signOut signedInExample).historyHtml = "" ∧
    (signOut signedInExample).currentThreadId = some 7 ∧
    (signOut signedInExample).currentMessagesCount = 4 ∧
    (signOut signedInExample).progressHtml = "xp-bar" := by decide

/-- C10 counterexample: when the validation fetch throws a network error,
the catch block does nothing, so the persisted session fields are NOT
cleared — `userId` and `username` both survive in storage, refuting the
claim that both failure kinds clear them. -/
theorem restore_netError_keeps_persisted :
    (restoreSession (restoreInit 9 "bob") UserInfoResult.netError).localUserId = some 9 ∧
    (restoreSession (restoreInit 9 "bob") UserInfoResult.netError).localUsername
      = some "bob" := by decide

/-- C10 amended: when the server rejects the stored session the persisted
fields are cleared; when the request fails with a network error they are
retained.  In both cases the UI stays in unauthenticated mode (auth
section visible, chat and dashboard hidden) and no blocking error is
surfaced — though the in-memory user id assigned during the restore
attempt is not reset in either case. -/
theorem restore_failure_behavior (st : RestoreState) (uid : Int)
    (h : st.localUserId = some uid) (ha : st.authVisible = true)
    (hc : st.chatVisible = false) (hd : st.dashboardVisible = false)
    (hb : st.blockingAlert = false) :
    ((restoreSession st UserInfoResult.reject).localUserId = none ∧
     (restoreSession st UserInfoResult.reject).localUsername = none ∧
     (restoreSession st UserInfoResult.reject).currentUserId = some uid ∧
     (restoreSession st UserInfoResult.reject).authVisible = true ∧
     (restoreSession st UserInfoResult.reject).chatVisible = false ∧
     (restoreSession st UserInfoResult.reject).dashboardVisible = false ∧
     (restoreSession st UserInfoResult.reject).blockingAlert = false) ∧
    ((restoreSession st UserInfoResult.netError).localUserId = some uid ∧
     (restoreSession st UserInfoResult.netError).currentUserId = some uid ∧
     (restoreSession st UserInfoResult.netError).authVisible = true ∧
     (restoreSession st UserInfoResult.netError).chatVisible = false ∧
     (restoreSession st UserInfoResult.netError).dashboardVisible = false ∧
     (restoreSession st UserInfoResult.netError).blockingAlert = false) := by
  simp [restoreSession, h, ha, hc, hd, hb]

/-- C10 amended witness: concrete restore of user 9 with both failure
outcomes. -/
theorem restore_failure_behavior_witness :
    ((restoreSession (restoreInit 9 "bob") UserInfoResult.reject).localUserId = none ∧
     (restoreSession (restoreInit 9 "bob") UserInfoResult.reject).localUsername = none ∧
     (restoreSession (restoreInit 9 "bob") UserInfoResult.reject).currentUserId = some 9 ∧
     (restoreSession (restoreInit 9 "bob") UserInfoResult.reject).authVisible = true ∧
     (restoreSession (restoreInit 9 "bob") UserInfoResult.reject).chatVisible = false ∧
     (restoreSession (restoreInit 9 "bob") UserInfoResult.reject).dashboardVisible = false ∧
     (restoreSession (restoreInit 9 "bob") UserInfoResult.reject).blockingAlert = false) ∧
    ((restoreSession (restoreInit 9 "bob") UserInfoResult.netError).localUserId = some 9 ∧
     (restoreSession (restoreInit 9 "bob") UserInfoResult.netError).currentUserId = some 9 ∧
     (restoreSession (restoreInit 9 "bob") UserInfoResult.netError).authVisible = true ∧
     (restoreSession (restoreInit 9 "bob") UserInfoResult.netError).chatVisible = false ∧
     (restoreSession (restoreInit 9 "bob") UserInfoResult.netError).dashboardVisible = false ∧
     (restoreSession (restoreInit 9 "bob") UserInfoResult.netError).blockingAlert = false) :=
  restore_failure_behavior (restoreInit 9 "bob") 9 rfl rfl rfl rfl rfl
